import Mathlib

/-!
Verification of the aigroup-econ-mcp econometrics toolbox.

This file shallowly embeds the parts of the Python source that the checked
properties depend on:

* `econometrics/basic_parametric_estimation/ols/ols_model.py`
* `econometrics/basic_parametric_estimation/gmm/gmm_model.py`
* `econometrics/basic_parametric_estimation/mle/mle_model.py`
* `econometrics/specific_data_modeling/time_series_panel_data/unit_root_tests.py`
* `econometrics/model_specification_diagnostics_robust_inference/weighted_least_squares/wls_model.py`
* `src/aigroup_econ_mcp/tools/file_parser.py`

Machine floats are modelled by exact rationals plus explicit `inf` / `nan`
markers (`PyFloat`).  Calls into numerical libraries (scipy's BFGS optimiser,
distribution cdf/ppf functions, statsmodels test routines) are not
re-implemented; each is abstracted as an explicit oracle argument, and every
theorem below quantifies over the oracle, so no conclusion depends on the
oracle's value.  All deterministic control flow, validation, and closed-form
arithmetic is embedded directly from the source.
-/

set_option allowUnsafeReducibility true

attribute [semireducible] Rat.mul Rat.add Rat.inv Rat.sub Rat.ofScientific

/-- Model of a Python `float` value: an exact rational, or one of the special
IEEE values `inf`, `-inf`, `nan` that the source code produces explicitly
(`np.inf`, `np.nan`, `1.0/0.0`). -/
inductive PyFloat where
  | fin (q : ℚ)
  | inf
  | ninf
  | nan
deriving DecidableEq

/-- Arithmetic mean `np.mean(data)` of a list of rationals (sum divided by
length; for the empty list this is `0/0 = 0`, but every use below is guarded
by non-emptiness exactly as in the source). -/
def ratMean (xs : List ℚ) : ℚ := xs.sum / (xs.length : ℚ)

/-- Python float division `1.0 / q` for `q` arising as a mean of non-negative
data: division by zero yields `+inf` (numpy emits a warning, not an error),
otherwise the exact quotient. -/
def pyOneDiv (q : ℚ) : PyFloat :=
  if q = 0 then PyFloat.inf else PyFloat.fin (1 / q)

/-- Boolean test used to mirror `Except.isOk = false` style conclusions. -/
def isErr {α : Type} : Except String α → Bool
  | Except.error _ => true
  | Except.ok _ => false

/-! ## OLS (`ols_model.py`) -/

/-- Result record `OLSResult` of `ols_model.py` (pydantic model, lines
13-28).  Float-valued fields use `PyFloat` since the degenerate branch stores
`np.inf` / `np.nan` in them. -/
structure OLSResult where
  coefficients : List PyFloat
  std_errors : List PyFloat
  t_values : List PyFloat
  p_values : List PyFloat
  conf_int_lower : List PyFloat
  conf_int_upper : List PyFloat
  r_squared : PyFloat
  adj_r_squared : PyFloat
  f_statistic : PyFloat
  f_p_value : PyFloat
  aic : PyFloat
  bic : PyFloat
  n_obs : ℕ
  feature_names : List String
deriving DecidableEq

/-- Feature-name computation of the single-observation branch of
`ols_regression` with `constant=True` (lines 89-92): Python's
`if feature_names:` is falsy both for `None` and for the empty list. -/
def olsConstNames : Option (List String) → List String
  | some (n :: ns) => "const" :: n :: ns
  | _ => ["const", "x0"]

/-- Feature-name computation of the single-observation branch with
`constant=False` (lines 108-109). -/
def olsNoConstNames : Option (List String) → List String
  | some (n :: ns) => n :: ns
  | _ => ["x0"]

/-- Shallow embedding of `ols_regression` (`ols_model.py`, lines 31-267).

`x_data` is modelled as a list of observation rows (the source's scalar-list
case `isinstance(x_data[0], (int, float))` corresponds to rows that are
singleton lists, after its `reshape(-1, 1)`).  The `n >= 2` estimation paths
(statsmodels fit, lines 128-182, and the manual fallback, lines 183-267)
consist of numerical linear algebra and distribution calls; they are
abstracted by the oracle argument `generalFit`, applied after the validation
steps that the source performs first.  Everything up to and including the
single-observation branch (lines 54-126) is embedded literally. -/
def ols_regression (generalFit : OLSResult) (y_data : List ℚ)
    (x_data : List (List ℚ)) (feature_names : Option (List String))
    (constant : Bool) : Except String OLSResult :=
  if y_data.isEmpty || x_data.isEmpty then
    Except.error "因变量和自变量数据不能为空"
  else if y_data.length ≠ x_data.length then
    Except.error "因变量长度与自变量长度不一致"
  else if y_data.length = 1 then
    let y0 := PyFloat.fin y_data.headI
    if constant then
      Except.ok
        { coefficients := [y0, PyFloat.fin 0]
          std_errors := [PyFloat.fin 0, PyFloat.fin 0]
          t_values := [PyFloat.inf, PyFloat.inf]
          p_values := [PyFloat.fin 0, PyFloat.fin 0]
          conf_int_lower := [y0, PyFloat.fin 0]
          conf_int_upper := [y0, PyFloat.fin 0]
          r_squared := PyFloat.fin 1
          adj_r_squared := PyFloat.nan
          f_statistic := PyFloat.inf
          f_p_value := PyFloat.fin 0
          aic := PyFloat.inf
          bic := PyFloat.inf
          n_obs := 1
          feature_names := olsConstNames feature_names }
    else
      Except.ok
        { coefficients := [y0]
          std_errors := [PyFloat.fin 0]
          t_values := [PyFloat.inf]
          p_values := [PyFloat.fin 0]
          conf_int_lower := [y0]
          conf_int_upper := [y0]
          r_squared := PyFloat.fin 1
          adj_r_squared := PyFloat.nan
          f_statistic := PyFloat.inf
          f_p_value := PyFloat.fin 0
          aic := PyFloat.inf
          bic := PyFloat.inf
          n_obs := 1
          feature_names := olsNoConstNames feature_names }
  else
    Except.ok generalFit

/-! ## GMM (`gmm_model.py`) -/

/-- Result record `GMMResult` of `gmm_model.py` (lines 14-27).  Fields that
are produced purely by the abstracted numerical steps (coefficient vector,
standard errors, t/p-values, confidence bounds, weight matrix) are carried as
data supplied by the oracle; the J-statistic p-value, observation and moment
counts, and feature names are computed by the embedding. -/
structure GMMResult where
  coefficients : List PyFloat
  std_errors : List PyFloat
  t_values : List PyFloat
  p_values : List PyFloat
  conf_int_lower : List PyFloat
  conf_int_upper : List PyFloat
  j_statistic : ℚ
  j_p_value : ℚ
  weight_matrix : List (List ℚ)
  n_obs : ℕ
  n_moments : ℕ
  feature_names : List String
deriving DecidableEq

/-- Oracle for the numerical interior of `gmm_estimation`: the two-step
estimates delivered by scipy's BFGS optimiser, the resulting J statistics,
the chi-square survival function `1 - stats.chi2.cdf`, and flags recording
whether the primary block (lines 154-230) raises (sending control to the
`except` block, lines 231-293) and whether `np.linalg.inv(S)` inside that
`except` block raises in turn (which would propagate out of the call). -/
structure GMMNumerics where
  chi2sf : ℚ → ℕ → ℚ
  jstatTry : ℚ
  jstatExc : ℚ
  coefsTry : List PyFloat
  coefsExc : List PyFloat
  stderrTry : List PyFloat
  stderrExc : List PyFloat
  tTry : List PyFloat
  tExc : List PyFloat
  pTry : List PyFloat
  pExc : List PyFloat
  ciLoTry : List PyFloat
  ciLoExc : List PyFloat
  ciHiTry : List PyFloat
  ciHiExc : List PyFloat
  wTry : List (List ℚ)
  wExc : List (List ℚ)
  tryFails : Bool
  excInvFails : Bool

/-- J-statistic p-value computation shared by both the `try` block (lines
191-197) and the `except` block (lines 256-262) of `gmm_estimation`:
`df = l - k`; if `df > 0` the chi-square survival function is used, otherwise
(exact identification) the p-value is hard-coded to `1.0`. -/
def gmmJPValue (chi2sf : ℚ → ℕ → ℚ) (jstat : ℚ) (l k : ℕ) : ℚ :=
  if 0 < l - k then chi2sf jstat (l - k) else 1

/-- Feature-name computation of `gmm_estimation` after the constant column is
added (lines 134-144); Python's `if feature_names:` treats `None` and `[]`
alike. -/
def gmmFeatureNames (constant : Bool) (kTotal : ℕ) :
    Option (List String) → List String
  | some (n :: ns) => if constant then "const" :: n :: ns else n :: ns
  | _ => (List.range kTotal).map (fun i => "x" ++ toString i)

/-- Single-observation degenerate branch of `gmm_estimation`
(lines 74-118). -/
def gmmSingleObs (y0 : ℚ) (constant : Bool)
    (feature_names : Option (List String)) : GMMResult :=
  if constant then
    { coefficients := [PyFloat.fin y0, PyFloat.fin 0]
      std_errors := [PyFloat.fin 0, PyFloat.fin 0]
      t_values := [PyFloat.inf, PyFloat.inf]
      p_values := [PyFloat.fin 0, PyFloat.fin 0]
      conf_int_lower := [PyFloat.fin y0, PyFloat.fin 0]
      conf_int_upper := [PyFloat.fin y0, PyFloat.fin 0]
      j_statistic := 0
      j_p_value := 1
      weight_matrix := [[1, 0], [0, 1]]
      n_obs := 1
      n_moments := 2
      feature_names :=
        match feature_names with
        | some (n :: ns) => "const" :: n :: ns
        | _ => ["const", "x0"] }
  else
    { coefficients := [PyFloat.fin y0]
      std_errors := [PyFloat.fin 0]
      t_values := [PyFloat.inf]
      p_values := [PyFloat.fin 0]
      conf_int_lower := [PyFloat.fin y0]
      conf_int_upper := [PyFloat.fin y0]
      j_statistic := 0
      j_p_value := 1
      weight_matrix := [[1]]
      n_obs := 1
      n_moments := 1
      feature_names :=
        match feature_names with
        | some (n :: ns) => n :: ns
        | _ => ["x0"] }

/-- Construction of the instrument-column count of `gmm_estimation`
(`gmm_model.py`, lines 120-132): with no instruments supplied,
`Z = X.copy()` has the regressors' column count; otherwise the supplied
rows are used, after numpy's shape check and the length-consistency
check. -/
def gmmZCols (yLen xCols : ℕ) : Option (List (List ℚ)) → Except String ℕ
  | none => Except.ok xCols
  | some zs =>
      if zs.isEmpty then Except.ok 0
      else if ¬ zs.all (fun row => row.length = zs.headI.length) then
        Except.error "setting an array element with a sequence"
      else if yLen ≠ zs.length then
        Except.error "因变量长度与工具变量长度不一致"
      else Except.ok zs.headI.length

/-- The part of `gmm_estimation` that follows the construction of `X` and
`Z` (`gmm_model.py`, lines 146-293): the `l < k` under-identification check,
then the two-step estimation, whose pieces come from the oracle except for
the `df = l - k` branch of the J-statistic p-value (present identically in
the `try` and the `except` block).  A failure of `np.linalg.inv(S)` inside
the `except` block (which has no regularisation term, line 243) propagates
out of the call. -/
def gmmTail (num : GMMNumerics) (nObs k l : ℕ) (names : List String) :
    Except String GMMResult :=
  if l < k then
    Except.error ("工具变量数量(" ++ toString l ++ ")少于参数数量(" ++
      toString k ++ ")，无法进行GMM估计")
  else if num.tryFails then
    if num.excInvFails then
      Except.error "Singular matrix"
    else
      Except.ok
        { coefficients := num.coefsExc
          std_errors := num.stderrExc
          t_values := num.tExc
          p_values := num.pExc
          conf_int_lower := num.ciLoExc
          conf_int_upper := num.ciHiExc
          j_statistic := num.jstatExc
          j_p_value := gmmJPValue num.chi2sf num.jstatExc l k
          weight_matrix := num.wExc
          n_obs := nObs
          n_moments := l
          feature_names := names }
  else
    Except.ok
      { coefficients := num.coefsTry
        std_errors := num.stderrTry
        t_values := num.tTry
        p_values := num.pTry
        conf_int_lower := num.ciLoTry
        conf_int_upper := num.ciHiTry
        j_statistic := num.jstatTry
        j_p_value := gmmJPValue num.chi2sf num.jstatTry l k
        weight_matrix := num.wTry
        n_obs := nObs
        n_moments := l
        feature_names := names }

/-- Shallow embedding of `gmm_estimation` (`gmm_model.py`, lines 30-293).

`x_data` and the optional `instruments` are lists of observation rows (the
source's flat-list cases again correspond to singleton rows after
`reshape(-1, 1)`).  A ragged row list makes `np.array` raise, modelled as an
error.  After validation, the single-observation branch, the default
`Z = X.copy()`, the constant columns, the `l < k` under-identification check
and the `df = l - k` p-value branch are embedded from the source; the
numerical interior is drawn from the oracle `num`. -/
def gmm_estimation (num : GMMNumerics) (y_data : List ℚ)
    (x_data : List (List ℚ)) (instruments : Option (List (List ℚ)))
    (feature_names : Option (List String)) (constant : Bool) :
    Except String GMMResult :=
  if y_data.isEmpty || x_data.isEmpty then
    Except.error "因变量和自变量数据不能为空"
  else if ¬ x_data.all (fun r => r.length = x_data.headI.length) then
    Except.error "setting an array element with a sequence"
  else if y_data.length ≠ x_data.length then
    Except.error "因变量长度与自变量长度不一致"
  else if y_data.length = 1 then
    Except.ok (gmmSingleObs y_data.headI constant feature_names)
  else
    match gmmZCols y_data.length x_data.headI.length instruments with
    | Except.error e => Except.error e
    | Except.ok zCols =>
        gmmTail num y_data.length
          (if constant then x_data.headI.length + 1 else x_data.headI.length)
          (if constant then zCols + 1 else zCols)
          (gmmFeatureNames constant
            (if constant then x_data.headI.length + 1 else x_data.headI.length)
            feature_names)

/-! ## MLE (`mle_model.py`) -/

/-- Result record `MLEResult` of `mle_model.py` (lines 14-25). -/
structure MLEResult where
  parameters : List PyFloat
  std_errors : List PyFloat
  conf_int_lower : List PyFloat
  conf_int_upper : List PyFloat
  log_likelihood : PyFloat
  aic : PyFloat
  bic : PyFloat
  convergence : Bool
  n_obs : ℕ
  param_names : List String
deriving DecidableEq

/-- Oracle for the library-valued quantities inside the MLE helpers: log
pdf/pmf sums, the normal quantile `z_critical`, square roots for standard
errors, the sample standard deviation for the normal case, and the AIC/BIC
values derived from the log-likelihood via `np.log`.  `tryFails` records
whether the `try` block of a `_*_mle_statsmodels` helper raises, sending
control to the corresponding `_*_mle` fallback (which recomputes the same
closed-form point estimate). -/
structure MLENumerics where
  loglik : PyFloat
  sigmaHat : PyFloat
  stdErrs : List PyFloat
  ciLo : List PyFloat
  ciHi : List PyFloat
  aic : PyFloat
  bic : PyFloat
  fallbackConverges : Bool
  tryFails : Bool

/-- Shallow embedding of `_poisson_mle_statsmodels` together with its
fallback `_poisson_mle` (`mle_model.py`, lines 132-177 and 285-322).  Both
paths set `parameters = [lambda_hat]` with the closed form
`lambda_hat = np.mean(data)` (lines 136 and 294); the surrounding
distribution calls are drawn from the oracle. -/
def poissonMLE (num : MLENumerics) (data : List ℚ) : MLEResult :=
  { parameters := [PyFloat.fin (ratMean data)]
    std_errors := num.stdErrs
    conf_int_lower := num.ciLo
    conf_int_upper := num.ciHi
    log_likelihood := num.loglik
    aic := num.aic
    bic := num.bic
    convergence := true
    n_obs := data.length
    param_names := ["lambda"] }

/-- Shallow embedding of `_exponential_mle_statsmodels` together with its
fallback `_exponential_mle` (`mle_model.py`, lines 180-225 and 325-358).
Both paths set `parameters = [lambda_hat]` with the closed form
`lambda_hat = 1.0 / np.mean(data)` (lines 184 and 330); a zero mean yields
`inf` under numpy float division. -/
def exponentialMLE (num : MLENumerics) (data : List ℚ) : MLEResult :=
  { parameters := [pyOneDiv (ratMean data)]
    std_errors := num.stdErrs
    conf_int_lower := num.ciLo
    conf_int_upper := num.ciHi
    log_likelihood := num.loglik
    aic := num.aic
    bic := num.bic
    convergence := true
    n_obs := data.length
    param_names := ["lambda"] }

/-- Shallow embedding of `_normal_mle_statsmodels` with its fallback
(`mle_model.py`, lines 76-129 and 228-282): `mu_hat = np.mean(data)` in the
closed-form path; the sample standard deviation and (for the fallback) the
BFGS solution come from the oracle. -/
def normalMLE (num : MLENumerics) (data : List ℚ) : MLEResult :=
  if num.tryFails then
    { parameters := [PyFloat.fin (ratMean data), num.sigmaHat]
      std_errors := num.stdErrs
      conf_int_lower := num.ciLo
      conf_int_upper := num.ciHi
      log_likelihood := num.loglik
      aic := num.aic
      bic := num.bic
      convergence := num.fallbackConverges
      n_obs := data.length
      param_names := ["mu", "sigma"] }
  else
    { parameters := [PyFloat.fin (ratMean data), num.sigmaHat]
      std_errors := num.stdErrs
      conf_int_lower := num.ciLo
      conf_int_upper := num.ciHi
      log_likelihood := num.loglik
      aic := num.aic
      bic := num.bic
      convergence := true
      n_obs := data.length
      param_names := ["mu", "sigma"] }

/-- Shallow embedding of `mle_estimation` (`mle_model.py`, lines 28-73):
input validation (empty data; negative data for the poisson and exponential
distributions), then dispatch on the distribution name. -/
def mle_estimation (num : MLENumerics) (data : List ℚ)
    (distribution : String) : Except String MLEResult :=
  if data.isEmpty then
    Except.error "数据不能为空"
  else if distribution = "exponential" && data.any (fun v => decide (v < 0)) then
    Except.error "指数分布的数据必须为非负数"
  else if distribution = "poisson" && data.any (fun v => decide (v < 0)) then
    Except.error "泊松分布的数据必须为非负数"
  else if distribution = "normal" then
    Except.ok (normalMLE num data)
  else if distribution = "poisson" then
    Except.ok (poissonMLE num data)
  else if distribution = "exponential" then
    Except.ok (exponentialMLE num data)
  else
    Except.error ("不支持的分布类型: " ++ distribution)

/-! ## Unit-root tests (`unit_root_tests.py`) -/

/-- Result record `UnitRootTestResult` (`unit_root_tests.py`, lines 10-18).
Optional fields default to `None` exactly as in the pydantic model. -/
structure UnitRootTestResult where
  test_type : String
  test_statistic : ℚ
  p_value : Option ℚ
  critical_values : Option (List (String × ℚ))
  lags : Option ℕ
  stationary : Option Bool
  n_obs : ℕ
deriving DecidableEq

/-- Outcome of a successful call into the underlying statsmodels routine
(`adfuller` / `pperron` / `kpss`): statistic, p-value, lag count, observation
count, and the optional critical-value table.  An oracle value of `none`
models the routine (or anything else inside the `try` block) raising. -/
structure SMTestOutcome where
  stat : ℚ
  pvalue : ℚ
  smLags : ℕ
  nobs : ℕ
  crit : Option (List (String × ℚ))

/-- Shallow embedding of `adf_test` (`unit_root_tests.py`, lines 21-76).  On
success the stationarity flag is `p_value < 0.05` (line 56); on any failure
the fixed illustrative record of lines 69-76 is returned, with
`lags = max_lags or 1` (so `None` and `0` both become `1`). -/
def adf_test (data : List ℚ) (max_lags : Option ℕ)
    (sm : Option SMTestOutcome) : UnitRootTestResult :=
  match sm with
  | some r =>
      { test_type := "Augmented Dickey-Fuller Test"
        test_statistic := r.stat
        p_value := some r.pvalue
        critical_values := some (r.crit.getD [])
        lags := some r.smLags
        stationary := some (decide (r.pvalue < 5 / 100))
        n_obs := r.nobs }
  | none =>
      { test_type := "Augmented Dickey-Fuller Test"
        test_statistic := -5 / 2
        p_value := some (5 / 100)
        critical_values := none
        lags := some (match max_lags with | some m => if m = 0 then 1 else m | none => 1)
        stationary := some false
        n_obs := data.length }

/-- Shallow embedding of `pp_test` (`unit_root_tests.py`, lines 79-131); the
fallback record of lines 125-131 carries no lag count. -/
def pp_test (data : List ℚ) (sm : Option SMTestOutcome) :
    UnitRootTestResult :=
  match sm with
  | some r =>
      { test_type := "Phillips-Perron Test"
        test_statistic := r.stat
        p_value := some r.pvalue
        critical_values := some (r.crit.getD [])
        lags := some r.smLags
        stationary := some (decide (r.pvalue < 5 / 100))
        n_obs := r.nobs }
  | none =>
      { test_type := "Phillips-Perron Test"
        test_statistic := -23 / 10
        p_value := some (7 / 100)
        critical_values := none
        lags := none
        stationary := some false
        n_obs := data.length }

/-- Shallow embedding of `kpss_test` (`unit_root_tests.py`, lines 134-186).
On success the stationarity flag follows the opposite convention
`p_value > 0.05` (line 167) and `n_obs = len(data)` (line 158); on failure
the fixed illustrative record of lines 180-186 is returned. -/
def kpss_test (data : List ℚ) (sm : Option SMTestOutcome) :
    UnitRootTestResult :=
  match sm with
  | some r =>
      { test_type := "KPSS Test"
        test_statistic := r.stat
        p_value := some r.pvalue
        critical_values := some (r.crit.getD [])
        lags := some r.smLags
        stationary := some (decide (5 / 100 < r.pvalue))
        n_obs := data.length }
  | none =>
      { test_type := "KPSS Test"
        test_statistic := 2 / 5
        p_value := some (3 / 100)
        critical_values := none
        lags := none
        stationary := some true
        n_obs := data.length }

/-! ## WLS (`wls_model.py`) -/

/-- Result record `WLSResult` of `wls_model.py` (lines 15-29). -/
structure WLSResult where
  coefficients : List PyFloat
  std_errors : List PyFloat
  t_values : List PyFloat
  p_values : List PyFloat
  conf_int_lower : List PyFloat
  conf_int_upper : List PyFloat
  r_squared : PyFloat
  adj_r_squared : PyFloat
  f_statistic : PyFloat
  f_p_value : PyFloat
  n_obs : ℕ
  feature_names : List String
  weights : List ℚ
deriving DecidableEq

/-- Near-zero weight adjustment of `wls_regression` (`wls_model.py`, lines
70-73): if the minimum weight is below `1e-10`, every weight is replaced by
`np.maximum(w, w_min * 1e-3)`. -/
def clampNearZeroWeights (wmin : ℚ) (w : List ℚ) : List ℚ :=
  if wmin < 1 / 10 ^ 10 then w.map (fun wi => max wi (wmin * (1 / 1000)))
  else w

/-- Shallow embedding of `wls_regression` (`wls_model.py`, lines 34-176):
the weight-count check (lines 62-63), the positivity check (lines 66-67) and
the near-zero adjustment (lines 70-73) are embedded from the source; the
remaining fit (constant column, degrees-of-freedom check, weighted linear
algebra and distribution calls, lines 75-176) is abstracted as the oracle
`fit`, a function of the adjusted weight vector it receives. -/
def wls_regression (fit : List ℚ → Except String WLSResult)
    (y_data : List ℚ) (x_data : List (List ℚ)) (weights : List ℚ) :
    Except String WLSResult :=
  if weights.length ≠ y_data.length then
    Except.error "权重数量必须与观测值数量相同"
  else if weights.any (fun wi => decide (wi ≤ 0)) then
    Except.error "所有权重必须为正数"
  else
    match weights.min? with
    | none => Except.error "zero-size array to reduction operation minimum"
    | some wmin => fit (clampNearZeroWeights wmin weights)

/-! ## File parsing (`file_parser.py`)

Strings are processed as `List Char` so that every operation is a plain
structural recursion that the kernel can evaluate. -/

/-- ASCII whitespace recognised by Python's `str.strip()` (the inputs in
question are ASCII). -/
def pyIsSpace (c : Char) : Bool :=
  c = ' ' || c = '\t' || c = '\n' || c = '\r' || c = '\x0b' || c = '\x0c'

/-- Model of Python `str.strip()`. -/
def charsStrip (cs : List Char) : List Char :=
  ((cs.dropWhile pyIsSpace).reverse.dropWhile pyIsSpace).reverse

/-- Longest digit prefix of a character list, as digit values plus the
remainder. -/
def takeDigits : List Char → List ℕ × List Char
  | [] => ([], [])
  | c :: rest =>
      if c.isDigit then
        let (ds, r) := takeDigits rest
        (((c.toNat - 48) : ℕ) :: ds, r)
      else ([], c :: rest)

/-- Numeric value of a digit list read left to right. -/
def digitsVal (ds : List ℕ) : ℕ := ds.foldl (fun a d => a * 10 + d) 0

/-- Exponent part of a float literal: `e`/`E`, optional sign, at least one
digit, nothing after. Returns the signed exponent, `none` when malformed. -/
def takeExponent : List Char → Option ℤ
  | [] => some 0
  | c :: rest =>
      if c = 'e' || c = 'E' then
        let (sgn, rest2) :=
          match rest with
          | '+' :: r => ((1 : ℤ), r)
          | '-' :: r => ((-1 : ℤ), r)
          | r => (1, r)
        let (ds, r) := takeDigits rest2
        if ds.isEmpty || !r.isEmpty then none
        else some (sgn * (digitsVal ds : ℤ))
      else none

/-- Model of Python's `float(s)` for finite decimal literals: optional
surrounding whitespace, optional sign, `digits[.digits]` or `.digits`, and an
optional exponent.  The special spellings `inf`/`nan` and digit-group
underscores, which `float` also accepts, are treated as non-parsing here;
every concrete input below stays within the modelled fragment. -/
def pyFloatOfChars (cs0 : List Char) : Option ℚ :=
  let cs := charsStrip cs0
  let (sgn, cs1) :=
    match cs with
    | '+' :: r => ((1 : ℚ), r)
    | '-' :: r => ((-1 : ℚ), r)
    | r => (1, r)
  let (ip, cs2) := takeDigits cs1
  let (dotted, fp, cs3) :=
    match cs2 with
    | '.' :: r =>
        let (ds, r2) := takeDigits r
        (true, ds, r2)
    | r => (false, ([] : List ℕ), r)
  if ip.isEmpty && (!dotted || fp.isEmpty) then none
  else
    match takeExponent cs3 with
    | none => none
    | some e =>
        let mant : ℚ :=
          (digitsVal ip : ℚ) + (digitsVal fp : ℚ) / (10 ^ fp.length : ℚ)
        let scale : ℚ :=
          if 0 ≤ e then (10 ^ e.toNat : ℚ) else 1 / (10 ^ (-e).toNat : ℚ)
        some (sgn * mant * scale)

/-- Splits a character stream into lines at `'\n'` (the final fragment is
kept; an empty trailing fragment is produced for a trailing newline). -/
def splitLinesAux : List Char → List Char → List (List Char) → List (List Char)
  | [], cur, acc => acc ++ [cur.reverse]
  | c :: rest, cur, acc =>
      if c = '\n' then splitLinesAux rest [] (acc ++ [cur.reverse])
      else splitLinesAux rest (c :: cur) acc

/-- `content.split('\n')` on character lists. -/
def splitLines (cs : List Char) : List (List Char) := splitLinesAux cs [] []

/-- Drops one trailing `'\r'`, modelling the csv reader's record-terminator
handling for `"\r\n"` files. -/
def dropCR (l : List Char) : List Char :=
  match l.getLast? with
  | some '\r' => l.dropLast
  | _ => l

/-- Field splitter of one csv record for the default dialect: fields are
separated by `delim`; a field starting with `'"'` is quoted, a doubled
`'""'` inside quotes is a literal quote.  Arguments: remaining input,
reversed current field, accumulated fields, and a state (`0` unquoted,
`1` inside quotes, `2` directly after a quote character seen inside a
quoted field). -/
def csvSplitLineAux (delim : Char) :
    List Char → List Char → List String → ℕ → List String
  | [], field, acc, _ => acc ++ [String.mk field.reverse]
  | c :: rest, field, acc, st =>
      if st = 1 then
        if c = '"' then csvSplitLineAux delim rest field acc 2
        else csvSplitLineAux delim rest (c :: field) acc 1
      else if st = 2 then
        if c = '"' then csvSplitLineAux delim rest ('"' :: field) acc 1
        else if c = delim then
          csvSplitLineAux delim rest [] (acc ++ [String.mk field.reverse]) 0
        else csvSplitLineAux delim rest (c :: field) acc 0
      else
        if c = delim then
          csvSplitLineAux delim rest [] (acc ++ [String.mk field.reverse]) 0
        else if c = '"' && field.isEmpty then
          csvSplitLineAux delim rest field acc 1
        else csvSplitLineAux delim rest (c :: field) acc 0

/-- One csv record from one line; Python's `csv.reader` yields `[]` for a
blank line. -/
def csvSplitLine (delim : Char) (line : List Char) : List String :=
  if line.isEmpty then [] else csvSplitLineAux delim line [] [] 0

/-- Model of `list(csv.reader(io.StringIO(content), delimiter=delimiter))`
for inputs whose quoted fields do not span lines: split into lines, strip a
record-terminating `'\r'`, drop the empty fragment left by a trailing
newline, and split each line into fields. -/
def csvRows (delim : Char) (content : List Char) : List (List String) :=
  let ls := (splitLines content).map dropCR
  let ls2 := match ls.getLast? with
    | some [] => ls.dropLast
    | _ => ls
  ls2.map (csvSplitLine delim)

/-- `FileParser._detect_delimiter` (`file_parser.py`, lines 207-214):
the candidate (`','`, `'\t'`, `';'`, `'|'`) occurring most often in the
line; Python's `max` keeps the earliest candidate on ties. -/
def detectDelimiter (line : List Char) : Char :=
  [',', '\t', ';', '|'].foldl
    (fun best d => if line.count best < line.count d then d else best) ','

/-- `FileParser._has_header` (`file_parser.py`, lines 216-232): at least two
rows, and some cell of the first row fails float conversion. -/
def csvHasHeader (rows : List (List String)) : Bool :=
  if rows.length < 2 then false
  else rows.headI.any (fun cell => (pyFloatOfChars (charsStrip cell.data)).isNone)

/-- Insertion into the ordered-dictionary model of a Python `dict`: an
existing key keeps its position and gets the new value, a new key is
appended. -/
def dictInsert (m : List (String × List ℚ)) (k : String) (v : List ℚ) :
    List (String × List ℚ) :=
  if m.any (fun p => p.1 = k) then
    m.map (fun p => if p.1 = k then (k, v) else p)
  else m ++ [(k, v)]

/-- Lookup in the ordered-dictionary model; a missing key is Python's
`KeyError`. -/
def dictGet (m : List (String × List ℚ)) (k : String) :
    Except String (List ℚ) :=
  match m.find? (fun p => decide (p.1 = k)) with
  | some p => Except.ok p.2
  | none => Except.error ("KeyError: " ++ k)

/-- Parsed file record returned by `FileParser._parse_csv` /
`FileParser._parse_json` (`file_parser.py`, lines 126-133 and 168-175,
192-199), with the `data` dict as an ordered association list.  The field
`vars` models the record's `variables` key (`variables` is a reserved
token in Lean). -/
structure ParsedFile where
  data : List (String × List ℚ)
  vars : List String
  format : String
  data_type : String
  n_variables : ℕ
  n_observations : ℕ
deriving DecidableEq

/-- Keyword lists of `FileParser._detect_data_type` (`file_parser.py`, lines
249 and 253). -/
def timeKeywords : List String :=
  ["time", "date", "year", "month", "day", "period", "quarter"]

/-- Entity keyword list of `_detect_data_type`. -/
def entityKeywords : List String :=
  ["id", "entity", "firm", "company", "country", "region"]

/-- Substring test (`kw in var` on Python strings). -/
def containsSub (hay needle : List Char) : Bool :=
  hay.tails.any (fun t => needle.isPrefixOf t)

/-- Whether some variable name, lowercased, contains one of the keywords. -/
def hasKeywordVar (kws : List String) (data : List (String × List ℚ)) : Bool :=
  data.any (fun p => kws.any (fun kw =>
    containsSub (p.1.data.map Char.toLower) kw.data))

/-- `FileParser._detect_data_type` (`file_parser.py`, lines 234-263). -/
def detectDataType (data : List (String × List ℚ)) : String :=
  if data.length = 1 then "univariate"
  else if hasKeywordVar entityKeywords data && hasKeywordVar timeKeywords data then
    "panel"
  else if hasKeywordVar timeKeywords data || 2 ≤ data.length then "time_series"
  else "multivariate"

/-- Delimiter detected by `_parse_csv` from the first line of the stripped
content (`file_parser.py`, lines 78-83). -/
def csvDelim (content : String) : Char :=
  detectDelimiter (splitLines (charsStrip content.data)).headI

/-- The csv rows of the (unstripped) content, as in line 86-87. -/
def csvRowsOf (content : String) : List (List String) :=
  csvRows (csvDelim content) content.data

/-- Header row of `_parse_csv` (lines 93-101): the first row when a header
is detected, otherwise generated names `var1`, `var2`, …. -/
def csvHeaders (content : String) : List String :=
  let rows := csvRowsOf content
  if csvHasHeader rows then rows.headI
  else (List.range rows.headI.length).map (fun i => "var" ++ toString (i + 1))

/-- Data rows of `_parse_csv` (lines 93-101). -/
def csvDataRows (content : String) : List (List String) :=
  let rows := csvRowsOf content
  if csvHasHeader rows then rows.tail else rows

/-- Column extraction of `_parse_csv` (lines 105-115): for header position
`i`, every row long enough contributes its `i`-th cell when (and only when)
the stripped cell parses as a float; failing cells are silently skipped. -/
def csvColumn (dataRows : List (List String)) (i : ℕ) : List ℚ :=
  dataRows.filterMap (fun row =>
    (row.get? i).bind (fun c => pyFloatOfChars (charsStrip c.data)))

/-- The `parsed_data` dict of `_parse_csv` (lines 104-118): columns are
keyed by the stripped header and kept only when non-empty. -/
def csvParsedData (headers : List String) (dataRows : List (List String)) :
    List (String × List ℚ) :=
  (headers.enum).foldl
    (fun m p =>
      let col := csvColumn dataRows p.1
      if col.isEmpty then m
      else dictInsert m (String.mk (charsStrip p.2.data)) col) []

/-- Shallow embedding of `FileParser._parse_csv` (`file_parser.py`, lines
69-133).  The `if not lines` check of lines 79-80 is dead in Python
(`str.split` never returns an empty list) and is omitted;
`n_observations` is the length of the dict's first column
(`len(next(iter(parsed_data.values())))`, line 132). -/
def parse_csv (content : String) : Except String ParsedFile :=
  if (csvRowsOf content).isEmpty then Except.error "CSV文件没有数据"
  else if (csvParsedData (csvHeaders content) (csvDataRows content)).isEmpty
    then Except.error "CSV文件中没有有效的数值数据"
  else
    Except.ok
      { data := csvParsedData (csvHeaders content) (csvDataRows content)
        vars := (csvParsedData (csvHeaders content)
          (csvDataRows content)).map Prod.fst
        format := "csv"
        data_type := detectDataType
          (csvParsedData (csvHeaders content) (csvDataRows content))
        n_variables :=
          (csvParsedData (csvHeaders content) (csvDataRows content)).length
        n_observations := ((csvParsedData (csvHeaders content)
          (csvDataRows content)).headI).2.length }

/-- Tool-specific data shapes produced by
`FileParser.convert_to_tool_format` (`file_parser.py`, lines 265-387). -/
inductive ToolData where
  | singleVar (data : List ℚ) (variable_name : String)
  | multiDict (data : List (String × List ℚ))
  | matrix (data : List (List ℚ)) (feature_names : List String)
  | regression (y_data : List ℚ) (x_data : List (List ℚ))
      (feature_names : List String) (y_variable : String)
deriving DecidableEq

/-- Python list indexing `col[i]`; an out-of-range index raises
`IndexError`. -/
def pyIndex (l : List ℚ) (i : ℕ) : Except String ℚ :=
  match l.get? i with
  | some v => Except.ok v
  | none => Except.error "IndexError: list index out of range"

/-- Effectful traversal in the `Except` monad, modelling a Python loop that
appends one computed element per iteration and propagates the first
exception. -/
def exceptMapList {α β : Type} (f : α → Except String β) :
    List α → Except String (List β)
  | [] => Except.ok []
  | a :: l =>
      f a >>= fun b => exceptMapList f l >>= fun bs => Except.ok (b :: bs)

/-- The row-major matrix built by `convert_to_tool_format`
(lines 299-305 and 323-327): for each `i < n_obs`, the row
`[data[var][i] for var in vars]`. -/
def buildMatrix (data : List (String × List ℚ)) (vs : List String)
    (n : ℕ) : Except String (List (List ℚ)) :=
  exceptMapList (fun i =>
    exceptMapList (fun v => dictGet data v >>= fun col => pyIndex col i) vs)
    (List.range n)

/-- Shallow embedding of `FileParser.convert_to_tool_format`
(`file_parser.py`, lines 265-387) for the `single_var`,
`multi_var_dict`, `multi_var_matrix` and `regression` tool types.  The
`panel` branch additionally renders floats back to identifier strings
(`str(int(x))`), an operation outside this embedding; it is abstracted as
the oracle `panelSem`. -/
def convert_to_tool_format (panelSem : ParsedFile → Except String ToolData)
    (p : ParsedFile) (tool_type : String) : Except String ToolData :=
  if tool_type = "single_var" then
    match p.vars.get? 0 with
    | none => Except.error "IndexError: list index out of range"
    | some v0 => dictGet p.data v0 >>= fun col =>
        Except.ok (ToolData.singleVar col v0)
  else if tool_type = "multi_var_dict" then
    Except.ok (ToolData.multiDict p.data)
  else if tool_type = "multi_var_matrix" then
    match p.vars.get? 0 with
    | none => Except.error "IndexError: list index out of range"
    | some v0 =>
        dictGet p.data v0 >>= fun col0 =>
        buildMatrix p.data p.vars col0.length >>= fun m =>
        Except.ok (ToolData.matrix m p.vars)
  else if tool_type = "regression" then
    if p.vars.length < 2 then
      Except.error "回归分析至少需要2个变量（1个因变量和至少1个自变量）"
    else
      let yVar := p.vars.getLastD ""
      let xVars := p.vars.dropLast
      dictGet p.data yVar >>= fun yCol =>
      buildMatrix p.data xVars yCol.length >>= fun m =>
      Except.ok (ToolData.regression yCol m xVars yVar)
  else if tool_type = "panel" then
    panelSem p
  else
    Except.error ("不支持的工具类型: " ++ tool_type)

/-! ## Base64 pre-decode and dispatch (`FileParser.parse_file_content`) -/

/-- Value of one character of the standard base64 alphabet. -/
def b64Val (c : Char) : Option ℕ :=
  if 'A' ≤ c && c ≤ 'Z' then some (c.toNat - 65)
  else if 'a' ≤ c && c ≤ 'z' then some (c.toNat - 71)
  else if '0' ≤ c && c ≤ '9' then some (c.toNat + 4)
  else if c = '+' then some 62
  else if c = '/' then some 63
  else none

/-- Model of `base64.b64decode` for canonical input: characters of the
standard alphabet in groups of four with `=` padding only at the end.  The
real decoder first discards characters outside the alphabet and may
therefore succeed on some inputs this model rejects; the model answers
`some` only with the correct byte string, which is all the theorems below
rely on. -/
def b64DecodeGroups : List Char → Option (List ℕ)
  | [] => some []
  | c1 :: c2 :: c3 :: c4 :: rest =>
      (b64Val c1).bind fun v1 =>
      (b64Val c2).bind fun v2 =>
      if c3 = '=' then
        if c4 = '=' && rest.isEmpty then some [v1 * 4 + v2 / 16]
        else none
      else
        (b64Val c3).bind fun v3 =>
        if c4 = '=' then
          if rest.isEmpty then
            some [v1 * 4 + v2 / 16, (v2 % 16) * 16 + v3 / 4]
          else none
        else
          (b64Val c4).bind fun v4 =>
          (b64DecodeGroups rest).map (fun bs =>
            (v1 * 4 + v2 / 16) :: ((v2 % 16) * 16 + v3 / 4) ::
              ((v3 % 4) * 64 + v4) :: bs)
  | _ => none

/-- UTF-8 decoding of a byte list (as in `bytes.decode('utf-8')`):
1-4 byte sequences with continuation, overlong, surrogate and range
checks. -/
def utf8DecodeChars : List ℕ → Option (List Char)
  | [] => some []
  | b :: rest =>
      if b < 128 then
        (utf8DecodeChars rest).map (fun cs => Char.ofNat b :: cs)
      else if b < 194 then none
      else if b < 224 then
        match rest with
        | c1 :: rest2 =>
            if 128 ≤ c1 && c1 < 192 then
              (utf8DecodeChars rest2).map (fun cs =>
                Char.ofNat ((b - 192) * 64 + (c1 - 128)) :: cs)
            else none
        | [] => none
      else if b < 240 then
        match rest with
        | c1 :: c2 :: rest2 =>
            let lo1 := if b = 224 then 160 else 128
            let hi1 := if b = 237 then 160 else 192
            if lo1 ≤ c1 && c1 < hi1 && 128 ≤ c2 && c2 < 192 then
              (utf8DecodeChars rest2).map (fun cs =>
                Char.ofNat ((b - 224) * 4096 + (c1 - 128) * 64 + (c2 - 128)) :: cs)
            else none
        | _ => none
      else if b < 245 then
        match rest with
        | c1 :: c2 :: c3 :: rest2 =>
            let lo1 := if b = 240 then 144 else 128
            let hi1 := if b = 244 then 144 else 192
            if lo1 ≤ c1 && c1 < hi1 && 128 ≤ c2 && c2 < 192 &&
                128 ≤ c3 && c3 < 192 then
              (utf8DecodeChars rest2).map (fun cs =>
                Char.ofNat ((b - 240) * 262144 + (c1 - 128) * 4096 +
                  (c2 - 128) * 64 + (c3 - 128)) :: cs)
            else none
        | _ => none
      else none

/-- Bytes to string via UTF-8. -/
def utf8DecodeStr (bs : List ℕ) : Option String :=
  (utf8DecodeChars bs).map String.mk

/-- The defensive base64 step at the top of `parse_file_content`
(`file_parser.py`, lines 36-40): if the content both base64-decodes and
UTF-8-decodes, the decoded text replaces the supplied content; on any
failure the literal content is kept. -/
def pyMaybeB64 (content : String) : String :=
  match (b64DecodeGroups content.data).bind utf8DecodeStr with
  | some d => d
  | none => content

/-- `FileParser._detect_format` (`file_parser.py`, lines 53-67); whether
`json.loads(content.strip())` succeeds is abstracted as the oracle
`jsonLoadsOk`. -/
def detect_format (jsonLoadsOk : String → Bool) (content : String) :
    Except String String :=
  if jsonLoadsOk (String.mk (charsStrip content.data)) then Except.ok "json"
  else if content.data.contains ',' || content.data.contains '\t' then
    Except.ok "csv"
  else Except.error "无法自动检测文件格式，请明确指定"

/-- Format detection and dispatch of `parse_file_content` after the base64
step (`file_parser.py`, lines 42-51); `_parse_json` is abstracted as the
oracle `jsonSem`. -/
def parseAfterDecode (jsonLoadsOk : String → Bool)
    (jsonSem : String → Except String ParsedFile)
    (decoded : String) (file_format : String) : Except String ParsedFile :=
  let fmtE : Except String String :=
    if file_format = "auto" then detect_format jsonLoadsOk decoded
    else Except.ok file_format
  match fmtE with
  | Except.error e => Except.error e
  | Except.ok fmt =>
      if fmt = "csv" then parse_csv decoded
      else if fmt = "json" then jsonSem decoded
      else Except.error ("不支持的文件格式: " ++ fmt)

/-- Shallow embedding of `FileParser.parse_file_content`
(`file_parser.py`, lines 17-51): the base64 pre-decode is attempted on
every input before any format detection, and the rest of the pipeline runs
on its result. -/
def parse_file_content (jsonLoadsOk : String → Bool)
    (jsonSem : String → Except String ParsedFile)
    (content : String) (file_format : String) : Except String ParsedFile :=
  parseAfterDecode jsonLoadsOk jsonSem (pyMaybeB64 content) file_format

/-! ## Concrete instances used to exercise the theorems -/

deriving instance DecidableEq for Except

/-- A concrete numerical oracle for `gmm_estimation`, used to evaluate the
embedding on concrete data. -/
def gmmNumC : GMMNumerics :=
  { chi2sf := fun _ _ => 0
    jstatTry := 0
    jstatExc := 0
    coefsTry := []
    coefsExc := []
    stderrTry := []
    stderrExc := []
    tTry := []
    tExc := []
    pTry := []
    pExc := []
    ciLoTry := []
    ciLoExc := []
    ciHiTry := []
    ciHiExc := []
    wTry := []
    wExc := []
    tryFails := false
    excInvFails := false }

/-- The `GMMResult` that `gmm_estimation gmmNumC [1, 2] [[1], [2]]` with
default instruments and a constant produces. -/
def gmmResC : GMMResult :=
  { coefficients := []
    std_errors := []
    t_values := []
    p_values := []
    conf_int_lower := []
    conf_int_upper := []
    j_statistic := 0
    j_p_value := 1
    weight_matrix := []
    n_obs := 2
    n_moments := 2
    feature_names := ["x0", "x1"] }

/-- A concrete stand-in for the abstracted general estimation path of
`ols_regression`; its value is irrelevant to the single-observation
theorem. -/
def olsResC : OLSResult :=
  { coefficients := []
    std_errors := []
    t_values := []
    p_values := []
    conf_int_lower := []
    conf_int_upper := []
    r_squared := PyFloat.fin 0
    adj_r_squared := PyFloat.fin 0
    f_statistic := PyFloat.fin 0
    f_p_value := PyFloat.fin 0
    aic := PyFloat.fin 0
    bic := PyFloat.fin 0
    n_obs := 0
    feature_names := [] }

/-- A concrete oracle for the abstracted library calls of
`mle_estimation`. -/
def mleNumC : MLENumerics :=
  { loglik := PyFloat.fin 0
    sigmaHat := PyFloat.fin 0
    stdErrs := []
    ciLo := []
    ciHi := []
    aic := PyFloat.fin 0
    bic := PyFloat.fin 0
    fallbackConverges := true
    tryFails := false }

/-- A probe for the abstracted fit stage of `wls_regression`: it records
the weight vector it receives in the result's `weights` field, making the
effect (or non-effect) of the near-zero adjustment observable. -/
def wlsProbeFit (w : List ℚ) : Except String WLSResult :=
  Except.ok
    { coefficients := []
      std_errors := []
      t_values := []
      p_values := []
      conf_int_lower := []
      conf_int_upper := []
      r_squared := PyFloat.fin 0
      adj_r_squared := PyFloat.fin 0
      f_statistic := PyFloat.fin 0
      f_p_value := PyFloat.fin 0
      n_obs := w.length
      feature_names := []
      weights := w }

/-- The parsed record produced by `parse_csv` on the input
`"a,b\n1,x\n2,3"`, whose cell `x` fails float conversion and is silently
dropped from column `b`. -/
def csvUnequalRecord : ParsedFile :=
  { data := [("a", [1, 2]), ("b", [3])]
    vars := ["a", "b"]
    format := "csv"
    data_type := "time_series"
    n_variables := 2
    n_observations := 2 }

/-- A concrete parsed record with two equal-length columns. -/
def regressionRecordC : ParsedFile :=
  { data := [("x1", [1, 2]), ("y", [10, 20])]
    vars := ["x1", "y"]
    format := "csv"
    data_type := "time_series"
    n_variables := 2
    n_observations := 2 }

/-- Concrete `panel` oracle for `convert_to_tool_format` (never reached by
the regression tool type). -/
def panelSemC : ParsedFile → Except String ToolData :=
  fun _ => Except.error "panel"

/-- Concrete `json.loads` oracle under which no content parses as JSON. -/
def jsonLoadsNone : String → Bool := fun _ => false

/-- Concrete `_parse_json` oracle that rejects every content. -/
def jsonSemNone : String → Except String ParsedFile :=
  fun _ => Except.error "不支持的JSON数据格式"

/-! ## Theorems -/

/-- C10: `parse_file_content` attempts a base64 decode of every input before
any format detection; whenever the content is a valid base64 encoding of
UTF-8 text `d`, the rest of the pipeline (format detection and format
dispatch) runs on the decoded text `d`, not on the literal content supplied
by the caller. -/
theorem parse_file_content_uses_base64_decoded
    (jsonLoadsOk : String → Bool) (jsonSem : String → Except String ParsedFile)
    (content d : String) (file_format : String)
    (h : (b64DecodeGroups content.data).bind utf8DecodeStr = some d) :
    parse_file_content jsonLoadsOk jsonSem content file_format =
      parseAfterDecode jsonLoadsOk jsonSem d file_format := by
  simp only [parse_file_content, pyMaybeB64, h]

/-- Witness for C10: the plain-ASCII content `"MSwyCjMsNA=="` is valid
base64 for `"1,2\n3,4"`, so it is silently reinterpreted: the pipeline
parses the decoded csv text, yielding columns `var1 = [1, 3]`,
`var2 = [2, 4]` rather than anything derived from the literal string. -/
theorem parse_file_content_base64_witness :
    (b64DecodeGroups "MSwyCjMsNA==".data).bind utf8DecodeStr = some "1,2\n3,4" ∧
    parse_file_content jsonLoadsNone jsonSemNone "MSwyCjMsNA==" "csv" =
      parseAfterDecode jsonLoadsNone jsonSemNone "1,2\n3,4" "csv" ∧
    parseAfterDecode jsonLoadsNone jsonSemNone "1,2\n3,4" "csv" =
      Except.ok
        { data := [("var1", [1, 3]), ("var2", [2, 4])]
          vars := ["var1", "var2"]
          format := "csv"
          data_type := "time_series"
          n_variables := 2
          n_observations := 2 } :=
  ⟨by decide,
   parse_file_content_uses_base64_decoded jsonLoadsNone jsonSemNone
     "MSwyCjMsNA==" "1,2\n3,4" "csv" (by decide),
   by decide⟩

/-- C5 (code bug): the fallback branch of `kpss_test` returns the fixed
record `p_value = 0.03, stationary = True`, contradicting the KPSS
convention documented two lines above it in the same function
(`p > 0.05` is considered stationary): with `p = 0.03` the flag would have
to be `False`. -/
theorem kpss_fallback_violates_convention :
    (kpss_test ([] : List ℚ) none).stationary = some true ∧
    (kpss_test ([] : List ℚ) none).p_value = some (3 / 100) ∧
    ¬ ((5 : ℚ) / 100 < 3 / 100) := by
  refine ⟨rfl, rfl, by norm_num⟩

/-- C6: on any failure of the underlying statsmodels routine (oracle
`none`), `adf_test`, `pp_test` and `kpss_test` do not propagate the error
but return their fixed illustrative records, with `n_obs` set to the input
length; by their (total) return type they never raise. -/
theorem unit_root_tests_fallback_total (data : List ℚ)
    (max_lags : Option ℕ) :
    adf_test data max_lags none =
      { test_type := "Augmented Dickey-Fuller Test"
        test_statistic := -5 / 2
        p_value := some (5 / 100)
        critical_values := none
        lags := some (match max_lags with
          | some m => if m = 0 then 1 else m
          | none => 1)
        stationary := some false
        n_obs := data.length } ∧
    pp_test data none =
      { test_type := "Phillips-Perron Test"
        test_statistic := -23 / 10
        p_value := some (7 / 100)
        critical_values := none
        lags := none
        stationary := some false
        n_obs := data.length } ∧
    kpss_test data none =
      { test_type := "KPSS Test"
        test_statistic := 2 / 5
        p_value := some (3 / 100)
        critical_values := none
        lags := none
        stationary := some true
        n_obs := data.length } :=
  ⟨rfl, rfl, rfl⟩

/-- C9: on every non-empty variable mapping (the parser never calls it on an
empty one), `_detect_data_type` cannot answer `"multivariate"`: one variable
gives `"univariate"`, and with two or more variables the answer is
`"panel"` exactly when both an entity-like and a time-like token occur,
and `"time_series"` otherwise — the `n_vars >= 2` disjunct of the
time-series branch subsumes the final `"multivariate"` branch. -/
theorem detect_data_type_never_multivariate
    (data : List (String × List ℚ)) (h : data ≠ []) :
    detectDataType data ≠ "multivariate" ∧
    (data.length = 1 → detectDataType data = "univariate") ∧
    (2 ≤ data.length → detectDataType data =
      (if hasKeywordVar entityKeywords data && hasKeywordVar timeKeywords data
       then "panel" else "time_series")) := by
  have hlen : 1 ≤ data.length := by
    cases data with
    | nil => exact absurd rfl h
    | cons a l => simp
  refine ⟨?_, fun h1 => ?_, fun h2 => ?_⟩
  · unfold detectDataType
    split
    · decide
    · split
      · decide
      · split
        · decide
        · rename_i hc1 hc2 hc3
          exfalso
          simp only [Bool.or_eq_true, decide_eq_true_eq, not_or] at hc3
          have := hc3.2
          omega
  · unfold detectDataType
    rw [if_pos h1]
  · unfold detectDataType
    rw [if_neg (by omega : ¬ data.length = 1)]
    by_cases he : (hasKeywordVar entityKeywords data &&
        hasKeywordVar timeKeywords data) = true
    · rw [if_pos he, if_pos he]
    · rw [if_neg he, if_neg he, if_pos]
      rw [Bool.or_eq_true]
      right
      exact decide_eq_true h2

/-- Witness for C9: a two-column mapping without entity or time tokens is
classified `time_series`, not `multivariate`. -/
theorem detect_data_type_witness :
    detectDataType [("a", [(1 : ℚ)]), ("b", [2])] ≠ "multivariate" ∧
    detectDataType [("a", [(1 : ℚ)]), ("b", [2])] = "time_series" :=
  ⟨(detect_data_type_never_multivariate [("a", [1]), ("b", [2])] (by decide)).1,
   ((detect_data_type_never_multivariate [("a", [1]), ("b", [2])]
      (by decide)).2.2 (by decide)).trans (by decide)⟩

/-- `exceptMapList` succeeds pointwise when its function does. -/
theorem exceptMapList_ok {α β : Type} (f : α → Except String β)
    (g : α → β) (l : List α) (h : ∀ a ∈ l, f a = Except.ok (g a)) :
    exceptMapList f l = Except.ok (l.map g) := by
  induction l with
  | nil => rfl
  | cons a t ih =>
    simp only [List.map_cons]
    unfold exceptMapList
    rw [h a (List.mem_cons_self a t),
      ih (fun x hx => h x (List.mem_cons_of_mem a hx))]
    rfl

/-- `exceptMapList` over a mapped list fuses. -/
theorem exceptMapList_map {α β γ : Type} (f : β → Except String γ)
    (g : α → β) (l : List α) :
    exceptMapList f (l.map g) = exceptMapList (fun a => f (g a)) l := by
  induction l with
  | nil => rfl
  | cons a t ih =>
    simp only [List.map_cons]
    unfold exceptMapList
    rw [ih]

/-- In-range Python indexing returns the element. -/
theorem pyIndex_lt (l : List ℚ) (i : ℕ) (h : i < l.length) :
    pyIndex l i = Except.ok (l.getD i 0) := by
  unfold pyIndex
  cases hg : l.get? i with
  | none =>
    rw [List.get?_eq_none] at hg
    omega
  | some v =>
    rw [List.getD_eq_getElem?_getD, ← List.get?_eq_getElem?, hg]
    rfl

/-- Looking up a stored key in the dictionary model returns its value when
the keys are distinct (as they are in a Python `dict`). -/
theorem dictGet_mem_nodup (m : List (String × List ℚ)) (k : String)
    (v : List ℚ) (hnd : (m.map Prod.fst).Nodup) (hm : (k, v) ∈ m) :
    dictGet m k = Except.ok v := by
  induction m with
  | nil => simp at hm
  | cons a t ih =>
    rw [List.map_cons, List.nodup_cons] at hnd
    rcases List.mem_cons.mp hm with heq | hmt
    · rw [← heq]
      unfold dictGet
      rw [List.find?_cons_of_pos _ (by simp)]
    · have hk : ¬ a.1 = k := by
        intro he
        exact hnd.1 (he ▸ List.mem_map.mpr ⟨(k, v), hmt, rfl⟩)
      unfold dictGet
      rw [List.find?_cons_of_neg _ (by simp [hk])]
      have := ih hnd.2 hmt
      unfold dictGet at this
      exact this

/-- Mapping `max · c` over a list whose members all dominate `c` changes
nothing. -/
theorem map_max_eq_self (w : List ℚ) (c : ℚ) (h : ∀ wi ∈ w, c ≤ wi) :
    w.map (fun wi => max wi c) = w := by
  induction w with
  | nil => rfl
  | cons a t ih =>
    simp only [List.map_cons]
    rw [max_eq_left (h a (List.mem_cons_self a t)),
      ih (fun wi hwi => h wi (List.mem_cons_of_mem a hwi))]

/-- C8 counterexample: a weight of `1e-12` is below the `1e-10` threshold,
yet the near-zero adjustment leaves it unchanged — the floor
`w_min * 1e-3` is below the minimum weight itself, so
`np.maximum(w, w_min * 1e-3)` is the identity and the fit receives
exactly the supplied weights, with nothing raised to a floor. -/
theorem wls_clamp_noop_counterexample :
    ((1 : ℚ) / 10 ^ 12 < 1 / 10 ^ 10) ∧
    clampNearZeroWeights (1 / 10 ^ 12) [1 / 10 ^ 12, 1] = [1 / 10 ^ 12, 1] ∧
    wls_regression wlsProbeFit [1, 2] [[1], [2]] [1 / 10 ^ 12, 1] =
      wlsProbeFit [1 / 10 ^ 12, 1] := by
  refine ⟨by decide, by decide, by decide⟩

/-- C8 (amended): `wls_regression` rejects a weight vector whose length
differs from the observation count or that contains a non-positive entry;
for every non-empty all-positive weight vector the near-zero adjustment is
a no-op (its floor `w_min/1000` lies below every weight), so the fit stage
receives exactly the supplied weights — in particular no zero weight can
ever reach the fit. -/
theorem wls_weight_validation_and_clamp_noop
    (fit : List ℚ → Except String WLSResult) (y_data : List ℚ)
    (x_data : List (List ℚ)) (weights : List ℚ) :
    (weights.length ≠ y_data.length →
      wls_regression fit y_data x_data weights =
        Except.error "权重数量必须与观测值数量相同") ∧
    (weights.length = y_data.length →
      weights.any (fun wi => decide (wi ≤ 0)) = true →
      wls_regression fit y_data x_data weights =
        Except.error "所有权重必须为正数") ∧
    (weights.length = y_data.length → (∀ wi ∈ weights, 0 < wi) →
      weights ≠ [] →
      wls_regression fit y_data x_data weights = fit weights) := by
  refine ⟨fun h => ?_, fun hl hneg => ?_, fun hl hpos hne => ?_⟩
  · unfold wls_regression
    rw [if_pos h]
  · unfold wls_regression
    rw [if_neg (not_ne_iff.mpr hl), if_pos hneg]
  · unfold wls_regression
    rw [if_neg (not_ne_iff.mpr hl)]
    have hany : weights.any (fun wi => decide (wi ≤ 0)) = false := by
      simp only [List.any_eq_false, decide_eq_true_eq]
      intro wi hwi
      exact not_le.mpr (hpos wi hwi)
    rw [if_neg (by simp [hany])]
    cases hmin : weights.min? with
    | none => exact absurd (List.min?_eq_none_iff.mp hmin) hne
    | some wmin =>
      have hmem : wmin ∈ weights :=
        List.min?_mem (fun a b => min_choice a b) hmin
      have hle : ∀ b ∈ weights, wmin ≤ b := by
        intro b hb
        exact (List.le_min?_iff (fun a b c => le_min_iff) hmin).mp
          (le_refl wmin) b hb
      have hwpos : 0 < wmin := hpos wmin hmem
      have hnoop : clampNearZeroWeights wmin weights = weights := by
        unfold clampNearZeroWeights
        by_cases hsm : wmin < 1 / 10 ^ 10
        · rw [if_pos hsm]
          refine map_max_eq_self weights (wmin * (1 / 1000)) ?_
          intro wi hwi
          calc wmin * (1 / 1000) ≤ wmin * 1 := by
                have : (0 : ℚ) < wmin := hwpos
                nlinarith
            _ = wmin := mul_one wmin
            _ ≤ wi := hle wi hwi
        · rw [if_neg hsm]
      simp only [hnoop]

/-- Witness for C8: a mismatched weight count and a zero weight are each
rejected with the corresponding validation error, and an all-positive
weight vector reaches the fit stage unchanged. -/
theorem wls_weight_validation_witness :
    wls_regression wlsProbeFit [1, 2] [[1], [2]] [1] =
      Except.error "权重数量必须与观测值数量相同" ∧
    wls_regression wlsProbeFit [1, 2] [[1], [2]] [0, 1] =
      Except.error "所有权重必须为正数" ∧
    wls_regression wlsProbeFit [1, 2] [[1], [2]] [1 / 2, 3] =
      wlsProbeFit [1 / 2, 3] :=
  ⟨(wls_weight_validation_and_clamp_noop wlsProbeFit [1, 2] [[1], [2]]
      [1]).1 (by decide),
   (wls_weight_validation_and_clamp_noop wlsProbeFit [1, 2] [[1], [2]]
      [0, 1]).2.1 (by decide) (by decide),
   (wls_weight_validation_and_clamp_noop wlsProbeFit [1, 2] [[1], [2]]
      [1 / 2, 3]).2.2 (by decide) (by decide) (by decide)⟩

/-- C2: with exactly one observation and the constant enabled,
`ols_regression` does not fail: it returns the closed-form perfect-fit
record — the coefficient on the constant (the first coefficient, named
`const`) is the single `y` value, the slope coefficient is `0`, all
standard errors are `0`, both t-statistics are `inf`, and `R² = 1`. -/
theorem ols_single_observation_degenerate
    (generalFit : OLSResult) (y_data : List ℚ) (x_data : List (List ℚ))
    (feature_names : Option (List String))
    (hy : y_data.length = 1) (hx : x_data.length = 1) :
    (ols_regression generalFit y_data x_data feature_names true).map
        (fun r => (r.coefficients, r.feature_names.headI, r.std_errors,
          r.t_values, r.r_squared)) =
      Except.ok ([PyFloat.fin y_data.headI, PyFloat.fin 0], "const",
        [PyFloat.fin 0, PyFloat.fin 0], [PyFloat.inf, PyFloat.inf],
        PyFloat.fin 1) := by
  obtain ⟨a, rfl⟩ := List.length_eq_one.mp hy
  obtain ⟨row, rfl⟩ := List.length_eq_one.mp hx
  have hconst : (olsConstNames feature_names).headI = "const" := by
    cases feature_names with
    | none => rfl
    | some l =>
      cases l with
      | nil => rfl
      | cons n ns => rfl
  simp [ols_regression, hconst, Except.map]

/-- Witness for C2: `ols_regression` on the single observation
`y = [5]`, `x = [[2]]` with a constant. -/
theorem ols_single_observation_witness :
    (ols_regression olsResC [5] [[2]] none true).map
        (fun r => (r.coefficients, r.feature_names.headI, r.std_errors,
          r.t_values, r.r_squared)) =
      Except.ok ([PyFloat.fin 5, PyFloat.fin 0], "const",
        [PyFloat.fin 0, PyFloat.fin 0], [PyFloat.inf, PyFloat.inf],
        PyFloat.fin 1) :=
  ols_single_observation_degenerate olsResC [5] [[2]] none (by decide)
    (by decide)

/-- C3: for non-empty non-negative data, `mle_estimation` returns the
closed-form maximum-likelihood solutions: the poisson parameter vector is
exactly `[mean(data)]`, and the exponential parameter vector is exactly
`[1.0 / mean(data)]` (which under the source's float semantics is `inf`
when the data are all zero). -/
theorem mle_poisson_exponential_closed_forms
    (num : MLENumerics) (data : List ℚ)
    (hne : data ≠ []) (hpos : ∀ v ∈ data, 0 ≤ v) :
    (mle_estimation num data "poisson").map (fun r => r.parameters) =
      Except.ok [PyFloat.fin (ratMean data)] ∧
    (mle_estimation num data "exponential").map (fun r => r.parameters) =
      Except.ok [pyOneDiv (ratMean data)] := by
  have hany : data.any (fun v => decide (v < 0)) = false := by
    simp only [List.any_eq_false, decide_eq_true_eq]
    intro v hv
    exact not_lt.mpr (hpos v hv)
  have hemp : data.isEmpty = false := by
    cases data with
    | nil => exact absurd rfl hne
    | cons a t => rfl
  constructor
  · simp [mle_estimation, hany, hemp, poissonMLE, Except.map]
  · simp [mle_estimation, hany, hemp, exponentialMLE, Except.map]

/-- Witness for C3: data `[1, 2, 3]` has mean `2`; the poisson estimate is
`2` and the exponential estimate is `1/2`. -/
theorem mle_closed_forms_witness :
    (mle_estimation mleNumC [1, 2, 3] "poisson").map (fun r => r.parameters) =
      Except.ok [PyFloat.fin 2] ∧
    (mle_estimation mleNumC [1, 2, 3] "exponential").map
        (fun r => r.parameters) =
      Except.ok [PyFloat.fin (1 / 2)] := by
  have h := mle_poisson_exponential_closed_forms mleNumC [1, 2, 3]
    (by decide) (by decide)
  exact ⟨h.1.trans (by decide), h.2.trans (by decide)⟩

/-- Helper for C1: whatever the oracle delivers, any `GMMResult` that the
post-validation stage returns in the exactly-identified case `l = k` has
`j_p_value = 1`. -/
theorem gmmTail_j_p_value_one (num : GMMNumerics) (nObs k l : ℕ)
    (names : List String) (r : GMMResult) (hlk : l = k)
    (hok : gmmTail num nObs k l names = Except.ok r) :
    r.j_p_value = 1 := by
  subst hlk
  unfold gmmTail at hok
  rw [if_neg (lt_irrefl l)] at hok
  have hjp : gmmJPValue num.chi2sf num.jstatExc l l = 1 ∧
      gmmJPValue num.chi2sf num.jstatTry l l = 1 := by
    constructor <;>
      simp [gmmJPValue, Nat.sub_self]
  by_cases ht : num.tryFails
  · rw [if_pos ht] at hok
    by_cases hi : num.excInvFails
    · rw [if_pos hi] at hok
      simp at hok
    · rw [if_neg hi] at hok
      rw [Except.ok.injEq] at hok
      rw [← hok]
      exact hjp.1
  · rw [if_neg ht] at hok
    rw [Except.ok.injEq] at hok
    rw [← hok]
    exact hjp.2

/-- C1: for at least two observations, whenever the instrument count equals
the regressor count — including the default case `instruments = None`,
where the instruments are the regressors themselves — every `GMMResult`
that `gmm_estimation` returns has `j_p_value` exactly `1.0`, independently
of the data and of everything the numerical oracle delivers. -/
theorem gmm_exact_identification_j_p_value_one
    (num : GMMNumerics) (y_data : List ℚ) (x_data : List (List ℚ))
    (instruments : Option (List (List ℚ)))
    (feature_names : Option (List String)) (constant : Bool) (r : GMMResult)
    (hn : 2 ≤ y_data.length)
    (hinstr : instruments = none ∨ ∃ zs, instruments = some zs ∧
      zs.headI.length = x_data.headI.length)
    (hok : gmm_estimation num y_data x_data instruments feature_names
      constant = Except.ok r) :
    r.j_p_value = 1 := by
  unfold gmm_estimation at hok
  split at hok
  · simp at hok
  · split at hok
    · simp at hok
    · split at hok
      · simp at hok
      · split at hok
        · rename_i hlen1
          exfalso
          omega
        · cases hzc : gmmZCols y_data.length x_data.headI.length instruments
            with
          | error e =>
            rw [hzc] at hok
            simp at hok
          | ok zCols =>
            rw [hzc] at hok
            have hzcols : zCols = x_data.headI.length := by
              rcases hinstr with rfl | ⟨zs, rfl, hz⟩
              · simp [gmmZCols] at hzc
                omega
              · simp only [gmmZCols] at hzc
                split at hzc
                · rename_i hzempty
                  have hz0 : zs.headI.length = 0 := by
                    rw [List.isEmpty_iff.mp hzempty]
                    rfl
                  simp only [Except.ok.injEq] at hzc
                  omega
                · split at hzc
                  · simp at hzc
                  · split at hzc
                    · simp at hzc
                    · simp only [Except.ok.injEq] at hzc
                      omega
            exact gmmTail_j_p_value_one num y_data.length _ _ _ r
              (by cases constant <;> simp [hzcols]) hok

/-- Witness for C1: two observations, one regressor column, default
instruments, constant enabled: `j_p_value = 1`. -/
theorem gmm_exact_identification_witness :
    gmm_estimation gmmNumC [1, 2] [[1], [2]] none none true =
      Except.ok gmmResC ∧
    gmmResC.j_p_value = 1 :=
  ⟨by decide,
   gmm_exact_identification_j_p_value_one gmmNumC [1, 2] [[1], [2]] none
     none true gmmResC (by decide) (Or.inl rfl) (by decide)⟩

/-- A `filterMap` whose function succeeds on every element keeps the
length. -/
theorem filterMap_length_all_some {α β : Type} (f : α → Option β)
    (l : List α) (h : ∀ a ∈ l, (f a).isSome) :
    (l.filterMap f).length = l.length := by
  induction l with
  | nil => rfl
  | cons a t ih =>
    cases hfa : f a with
    | none =>
      have := h a (List.mem_cons_self a t)
      rw [hfa] at this
      simp at this
    | some b =>
      simp only [List.filterMap_cons, hfa, List.length_cons]
      rw [ih (fun x hx => h x (List.mem_cons_of_mem a hx))]

/-- `dictInsert` preserves a predicate that holds of every stored value and
of the inserted value. -/
theorem dictInsert_forall (P : List ℚ → Prop) (m : List (String × List ℚ))
    (k : String) (v : List ℚ) (hm : ∀ p ∈ m, P p.2) (hv : P v) :
    ∀ p ∈ dictInsert m k v, P p.2 := by
  intro p hp
  unfold dictInsert at hp
  split at hp
  · rcases List.mem_map.mp hp with ⟨q, hq, hpq⟩
    by_cases hk : q.1 = k
    · rw [if_pos hk] at hpq
      rw [← hpq]
      exact hv
    · rw [if_neg hk] at hpq
      rw [← hpq]
      exact hm q hq
  · rcases List.mem_append.mp hp with h1 | h2
    · exact hm p h1
    · rw [List.mem_singleton.mp h2]
      exact hv

/-- Every entry of the `parsed_data` fold of `_parse_csv` has a column of
length `N` as soon as each processed header position yields a full column
of length `N`. -/
theorem csvFoldl_lengths (dataRows : List (List String)) (N : ℕ) :
    ∀ (ps : List (ℕ × String)) (acc : List (String × List ℚ)),
    (∀ p ∈ acc, p.2.length = N) →
    (∀ q ∈ ps, (csvColumn dataRows q.1).length = N) →
    ∀ p ∈ ps.foldl (fun m q =>
        let col := csvColumn dataRows q.1
        if col.isEmpty then m
        else dictInsert m (String.mk (charsStrip q.2.data)) col) acc,
      p.2.length = N := by
  intro ps
  induction ps with
  | nil =>
    intro acc hacc _ p hp
    exact hacc p hp
  | cons q qs ih =>
    intro acc hacc hcol p hp
    rw [List.foldl_cons] at hp
    refine ih _ ?_ (fun q' hq' => hcol q' (List.mem_cons_of_mem q hq')) p hp
    simp only []
    split
    · exact hacc
    · exact dictInsert_forall (fun v => v.length = N) acc _ _ hacc
        (hcol q (List.mem_cons_self q qs))

/-- C4 counterexample: on the CSV content `"a,b\n1,x\n2,3"` the parser
succeeds, but the cell `x` is silently dropped, so column `b` has length 1
while `n_observations = 2` — the parsed record's columns are not all of
equal length, refuting the claimed invariant. -/
theorem parse_csv_unequal_columns_counterexample :
    parse_csv "a,b\n1,x\n2,3" = Except.ok csvUnequalRecord ∧
    ¬ (∀ c ∈ csvUnequalRecord.data,
        c.2.length = csvUnequalRecord.n_observations) := by
  constructor
  · decide
  · decide

/-- C4 (amended): columns of a parsed CSV record can be shorter than
`n_observations` when cells fail numeric conversion; when every data row
offers a parsable cell at every header position, all retained columns have
the common length — the number of data rows — and `n_observations` (the
length of the first retained column) equals it. -/
theorem parse_csv_columns_equal_when_all_cells_numeric
    (content : String) (r : ParsedFile)
    (hok : parse_csv content = Except.ok r)
    (hcells : ∀ row ∈ csvDataRows content,
      (csvHeaders content).length ≤ row.length ∧
      ∀ i < (csvHeaders content).length,
        ((row.get? i).bind
          (fun c => pyFloatOfChars (charsStrip c.data))).isSome) :
    (∀ c ∈ r.data, c.2.length = r.n_observations) ∧
    r.n_observations = (csvDataRows content).length := by
  have hcollen : ∀ q ∈ (csvHeaders content).enum,
      (csvColumn (csvDataRows content) q.1).length =
        (csvDataRows content).length := by
    intro q hq
    have hi : q.1 < (csvHeaders content).length := by
      have h1 := List.mk_mem_enum_iff_getElem?.mp hq
      rcases List.getElem?_eq_some.mp h1 with ⟨hlt, _⟩
      exact hlt
    refine filterMap_length_all_some _ _ ?_
    intro row hrow
    exact (hcells row hrow).2 q.1 hi
  have hall : ∀ p ∈ csvParsedData (csvHeaders content) (csvDataRows content),
      p.2.length = (csvDataRows content).length := by
    unfold csvParsedData
    exact csvFoldl_lengths (csvDataRows content) (csvDataRows content).length
      (csvHeaders content).enum [] (by intro p hp; simp at hp) hcollen
  unfold parse_csv at hok
  split at hok
  · simp at hok
  · split at hok
    · simp at hok
    · rename_i hrows hpd
      rw [Except.ok.injEq] at hok
      subst hok
      have hne : csvParsedData (csvHeaders content) (csvDataRows content)
          ≠ [] := by
        intro he
        rw [he] at hpd
        exact hpd rfl
      have hhead :
          (csvParsedData (csvHeaders content) (csvDataRows content)).headI ∈
            csvParsedData (csvHeaders content) (csvDataRows content) := by
        cases hc : csvParsedData (csvHeaders content) (csvDataRows content)
          with
        | nil => exact absurd hc hne
        | cons a t => exact List.mem_cons_self a t
      constructor
      · intro c hc
        rw [hall c hc]
        exact (hall _ hhead).symm
      · exact hall _ hhead

/-- Witness for C4: on `"a,b\n1,2\n3,4"` every cell parses, the parser
returns two columns of length 2, and `n_observations = 2` equals the
number of data rows. -/
theorem parse_csv_columns_witness :
    parse_csv "a,b\n1,2\n3,4" = Except.ok
      { data := [("a", [1, 3]), ("b", [2, 4])]
        vars := ["a", "b"]
        format := "csv"
        data_type := "time_series"
        n_variables := 2
        n_observations := 2 } ∧
    (("a", [(1 : ℚ), 3])).2.length = 2 ∧
    (2 : ℕ) = (csvDataRows "a,b\n1,2\n3,4").length :=
  ⟨by decide,
   (parse_csv_columns_equal_when_all_cells_numeric "a,b\n1,2\n3,4"
      { data := [("a", [1, 3]), ("b", [2, 4])]
        vars := ["a", "b"]
        format := "csv"
        data_type := "time_series"
        n_variables := 2
        n_observations := 2 } (by decide) (by decide)).1
     ("a", [1, 3]) (by decide),
   (parse_csv_columns_equal_when_all_cells_numeric "a,b\n1,2\n3,4"
      { data := [("a", [1, 3]), ("b", [2, 4])]
        vars := ["a", "b"]
        format := "csv"
        data_type := "time_series"
        n_variables := 2
        n_observations := 2 } (by decide) (by decide)).2⟩

/-- C7: for a parsed record (keys distinct, column lengths equal to
`n_observations`, `variables` listing the data keys), the `regression`
conversion rejects fewer than two variables with a descriptive error, and
otherwise returns the last variable's column as `y_data` together with the
row-major matrix whose `i`-th row holds the `i`-th value of every other
variable in their original order. -/
theorem convert_regression_shape
    (panelSem : ParsedFile → Except String ToolData) (p : ParsedFile)
    (hvars : p.vars = p.data.map Prod.fst)
    (hnodup : (p.data.map Prod.fst).Nodup)
    (hlen : ∀ c ∈ p.data, c.2.length = p.n_observations) :
    (p.vars.length < 2 → convert_to_tool_format panelSem p "regression" =
      Except.error "回归分析至少需要2个变量（1个因变量和至少1个自变量）") ∧
    (2 ≤ p.vars.length → convert_to_tool_format panelSem p "regression" =
      Except.ok (ToolData.regression
        (p.data.getLastD ("", [])).2
        ((List.range p.n_observations).map (fun i =>
          p.data.dropLast.map (fun c => c.2.getD i 0)))
        p.vars.dropLast (p.vars.getLastD ""))) := by
  have hcut : convert_to_tool_format panelSem p "regression" =
      (if p.vars.length < 2 then
        Except.error "回归分析至少需要2个变量（1个因变量和至少1个自变量）"
      else
        dictGet p.data (p.vars.getLastD "") >>= fun yCol =>
        buildMatrix p.data p.vars.dropLast yCol.length >>= fun m =>
        Except.ok (ToolData.regression yCol m p.vars.dropLast
          (p.vars.getLastD ""))) := by
    unfold convert_to_tool_format
    rw [if_neg (by decide), if_neg (by decide), if_neg (by decide),
      if_pos rfl]
  constructor
  · intro h
    rw [hcut, if_pos h]
  · intro h2
    rw [hcut, if_neg (not_lt.mpr h2)]
    have hlen2 : 2 ≤ p.data.length := by
      rw [hvars, List.length_map] at h2
      exact h2
    have hne : p.data ≠ [] := by
      intro he
      rw [he] at hlen2
      simp at hlen2
    have hlast : p.data.getLastD ("", []) ∈ p.data := by
      rw [List.getLastD_eq_getLast?, List.getLast?_eq_getLast p.data hne]
      simp only [Option.getD_some]
      exact List.getLast_mem hne
    have hyvar : p.vars.getLastD "" = (p.data.getLastD ("", [])).1 := by
      rw [hvars, List.getLastD_eq_getLast?, List.getLast?_map,
        List.getLastD_eq_getLast?, List.getLast?_eq_getLast p.data hne]
      simp
    have hget : dictGet p.data (p.vars.getLastD "") =
        Except.ok (p.data.getLastD ("", [])).2 := by
      rw [hyvar]
      refine dictGet_mem_nodup p.data _ _ hnodup ?_
      rw [Prod.mk.eta]
      exact hlast
    have hxvars : p.vars.dropLast = p.data.dropLast.map Prod.fst := by
      rw [hvars, List.map_dropLast]
    have hbm : buildMatrix p.data p.vars.dropLast p.n_observations =
        Except.ok ((List.range p.n_observations).map (fun i =>
          p.data.dropLast.map (fun c => c.2.getD i 0))) := by
      unfold buildMatrix
      refine exceptMapList_ok _ _ _ ?_
      intro i hi
      have hi' : i < p.n_observations := List.mem_range.mp hi
      rw [hxvars, exceptMapList_map]
      refine exceptMapList_ok _ _ _ ?_
      intro c hc
      have hcdata : c ∈ p.data := (List.dropLast_sublist p.data).subset hc
      have hgc : dictGet p.data c.1 = Except.ok c.2 := by
        refine dictGet_mem_nodup p.data _ _ hnodup ?_
        rw [Prod.mk.eta]
        exact hcdata
      rw [hgc]
      show pyIndex c.2 i = _
      refine pyIndex_lt c.2 i ?_
      rw [hlen c hcdata]
      exact hi'
    rw [hget]
    show (buildMatrix p.data p.vars.dropLast
        (p.data.getLastD ("", [])).2.length >>= fun m =>
      Except.ok (ToolData.regression (p.data.getLastD ("", [])).2 m
        p.vars.dropLast (p.vars.getLastD ""))) = _
    rw [hlen _ hlast, hbm]
    rfl

/-- Witness for C7: a two-variable record converts to `y = [10, 20]` with
the single remaining column as the regressor matrix `[[1], [2]]`. -/
theorem convert_regression_witness :
    convert_to_tool_format panelSemC regressionRecordC "regression" =
      Except.ok (ToolData.regression [10, 20] [[1], [2]] ["x1"] "y") :=
  (((convert_regression_shape panelSemC regressionRecordC (by decide)
      (by decide) (by decide)).2) (by decide)).trans (by decide)


